import Mathlib

/-
  Verification of the timekeeping core of mini-project-clock.c (a PIC18F8722
  real-time-clock firmware).

  Shallow embedding conventions:
  * C `char` is modelled as `Nat` holding an unsigned 8-bit value (the XC8
    compiler's default `char` is unsigned); assignments whose source
    expression can leave [0,255] are taken `% 256` explicitly.
  * C `unsigned int` (16-bit on this target) is modelled as `Nat` with
    `% 65536` where an increment is unguarded.
  * The global state touched by the seconds interrupt and the calendar engine
    (`MainTime`, `MainDate`, the rollover signals and the decimal-point mask)
    is collected in `ClockState`, and each C function becomes a state
    transformer on it.
  * Button-debounce routines read physical lines over time; a line is
    modelled as a trace `Nat → Nat` (level at a given elapsed millisecond,
    0 = asserted / pressed, active low), sampled at the instants the code
    samples it.
-/

/- ===== Constants from the preprocessor directives ===== -/

def DEBOUNCE_DELAY : Nat := 25

def HRS : Nat := 0x04
def MINS : Nat := 0x02
def SECS : Nat := 0x01
def DAY : Nat := 0x20
def MONTH : Nat := 0x10
def YEAR : Nat := 0x08

/- ===== Data model: the TIME and DATE structs ===== -/

structure TIME where
  hrs : Nat
  mins : Nat
  secs : Nat
deriving Repr, DecidableEq

structure DATE where
  day : Nat
  month : Nat
  year_short : Nat
  year_long : Nat
deriving Repr, DecidableEq

/- ===== Display tables (constant global arrays/structs) ===== -/

def DispNums : List Nat :=
  [0x84, 0xF5, 0x4C, 0x64, 0x35, 0x26, 0x06, 0xF4, 0x04, 0x34]

structure DispCharsT where
  A : Nat
  b : Nat
  C : Nat
  c : Nat
  d : Nat
  E : Nat
  F : Nat
  g : Nat
  H : Nat
  h : Nat
  I : Nat
  i : Nat
  J : Nat
  L : Nat
  M : Nat
  n : Nat
  o : Nat
  P : Nat
  r : Nat
  S : Nat
  t : Nat
  U : Nat
  u : Nat
  y : Nat
  uo : Nat
deriving Repr, DecidableEq

def DispChars : DispCharsT :=
  ⟨0x14, 0x07, 0x8E, 0x4F, 0x45, 0x0E, 0x1E, 0x24, 0x15, 0x17, 0x9F, 0xDF,
   0xC5, 0x8F, 0xD6, 0x57, 0x47, 0x1C, 0x5F, 0x26, 0x0F, 0x85, 0xC7, 0x25, 0x3C⟩

/-- Days in each month, non-leap years; index 0 is padding so the array is
indexed by month number 1..12. -/
def DaysInMonth : List Nat := [0, 31, 28, 31, 30, 31, 30, 31, 31, 30, 31, 30, 31]

/-- Days in each month for leap years. -/
def DaysInMonthLeap : List Nat := [0, 31, 29, 31, 30, 31, 30, 31, 31, 30, 31, 30, 31]

/- ===== Display output state and renderers ===== -/

/-- The three output latch shadow variables disp_U1, disp_U2, disp_LEDS. -/
structure Disp where
  disp_U1 : Nat
  disp_U2 : Nat
  disp_LEDS : Nat
deriving Repr, DecidableEq

/-- Num2Disp: renders a two-digit value into the display buffers, or the
error pair plus LED code 0x01 when the value exceeds 99.  The argument is an
unsigned char, so the only out-of-range values are 100..255. -/
def Num2Disp (time : Nat) (dsp : Disp) : Disp :=
  if 99 < time then
    { dsp with disp_U1 := DispChars.r, disp_U2 := DispChars.E, disp_LEDS := 0x01 }
  else
    { dsp with disp_U2 := DispNums.getD (time / 10) 0,
               disp_U1 := DispNums.getD (time % 10) 0 }

/-- CurrentDisplay: renders the date/time field selected by the display
index, or the error pair plus LED code 0x03 for an unmapped index. -/
def CurrentDisplay (i : Nat) (mainTime : TIME) (mainDate : DATE) (dsp : Disp) : Disp :=
  match i with
  | 0 => { Num2Disp mainDate.day dsp with disp_LEDS := DAY }
  | 1 => { Num2Disp mainDate.month dsp with disp_LEDS := MONTH }
  | 2 => { Num2Disp mainDate.year_short dsp with disp_LEDS := YEAR }
  | 3 => { Num2Disp mainTime.hrs dsp with disp_LEDS := HRS }
  | 4 => { Num2Disp mainTime.mins dsp with disp_LEDS := MINS }
  | 5 => { Num2Disp mainTime.secs dsp with disp_LEDS := SECS }
  | _ => { dsp with disp_U2 := DispChars.E, disp_U1 := DispChars.r, disp_LEDS := 0x03 }

/- ===== Debounce primitives ===== -/

/-- PB1pressed.  The code first samples PORTJ bit RJ5; if asserted (0) it
resets ms_count1 and busy-waits until ms_count1 reaches DEBOUNCE_DELAY, then
samples PORTJ bit RJ0 — note: a different pin from the first sample — and
returns 1 only if that second line reads 0.  Each physical line is given as
a trace of levels over elapsed milliseconds; the first sample happens at
instant 0 and the second at instant DEBOUNCE_DELAY. -/
def PB1pressed (rj5 rj0 : Nat → Nat) : Nat :=
  if rj5 0 = 0 then
    if rj0 DEBOUNCE_DELAY = 0 then 1 else 0
  else 0

/-- PB2pressed.  Samples PORTB bit RB0, resets ms_count1, busy-waits the
debounce interval, and re-samples the same line RB0. -/
def PB2pressed (rb0 : Nat → Nat) : Nat :=
  if rb0 0 = 0 then
    if rb0 DEBOUNCE_DELAY = 0 then 1 else 0
  else 0

/- ===== Clock state and the interrupt / calendar engine ===== -/

/-- The shared mutable state of the timekeeping core: the clock-of-record,
the two rollover signals and the decimal-point blink mask. -/
structure ClockState where
  mainTime : TIME
  mainDate : DATE
  mins_rollover : Nat
  day_rollover : Nat
  dp_mask : Nat
deriving Repr, DecidableEq

/-- Timer1_isr: the 1 Hz seconds tick.  Increments seconds below 59,
otherwise resets seconds and increments the minute-rollover counter (an
unsigned char, hence mod 256); always toggles bit 2 of dp_mask. -/
def Timer1_isr (s : ClockState) : ClockState :=
  if s.mainTime.secs < 59 then
    { s with mainTime := { s.mainTime with secs := s.mainTime.secs + 1 },
             dp_mask := Nat.xor s.dp_mask 4 }
  else
    { s with mainTime := { s.mainTime with secs := 0 },
             mins_rollover := (s.mins_rollover + 1) % 256,
             dp_mask := Nat.xor s.dp_mask 4 }

/-- CalcTime: folds the accumulated minute rollovers into minutes/hours.
mins_temp is an unsigned char, hence the mod 256 on its assignment; in the
rollover branch the C expression `mins_temp - 60` is computed in int and
truncated back to unsigned char, which for mins_temp < 256 equals
`(mins_temp + 196) % 256` (so mins_temp = 59 stores 255).  Note the guard is
`mins_temp < 59`, exactly as in the source. -/
def CalcTime (s : ClockState) : ClockState :=
  let mins_temp := (s.mainTime.mins + s.mins_rollover) % 256
  if mins_temp < 59 then
    { s with mainTime := { s.mainTime with mins := mins_temp },
             mins_rollover := 0 }
  else
    if s.mainTime.hrs < 23 then
      { s with mainTime := { s.mainTime with mins := (mins_temp + 196) % 256,
                                             hrs := s.mainTime.hrs + 1 },
               mins_rollover := 0 }
    else
      { s with mainTime := { s.mainTime with mins := (mins_temp + 196) % 256,
                                             hrs := 0 },
               day_rollover := 1,
               mins_rollover := 0 }

/-- CalcLeapYear: 1 when the year is divisible by 4 and (not divisible by
100 or divisible by 400), else 0. -/
def CalcLeapYear (year : Nat) : Nat :=
  if year % 4 = 0 then
    if year % 100 = 0 then
      if year % 400 = 0 then 1 else 0
    else 1
  else 0

/-- CalcDate: advances the date by one day after a day rollover.  The
non-leap branch consults DaysInMonth, the leap branch DaysInMonthLeap; on a
December wrap the non-leap branch increments the year only when
`year_long < 99` (exactly as in the source) and otherwise resets it to
2000/00, while the leap branch increments unconditionally. -/
def CalcDate (s : ClockState) : ClockState :=
  let s0 := { s with day_rollover := 0 }
  let d := s0.mainDate
  if CalcLeapYear d.year_long = 0 then
    if d.day < DaysInMonth.getD d.month 0 then
      { s0 with mainDate := { d with day := d.day + 1 } }
    else
      if d.month < 12 then
        { s0 with mainDate := { d with day := 1, month := d.month + 1 } }
      else
        if d.year_long < 99 then
          { s0 with mainDate := { d with day := 1, month := 1,
                                         year_long := (d.year_long + 1) % 65536,
                                         year_short := (d.year_short + 1) % 256 } }
        else
          { s0 with mainDate := { d with day := 1, month := 1,
                                         year_long := 2000, year_short := 0 } }
  else
    if d.day < DaysInMonthLeap.getD d.month 0 then
      { s0 with mainDate := { d with day := d.day + 1 } }
    else
      if d.month < 12 then
        { s0 with mainDate := { d with day := 1, month := d.month + 1 } }
      else
        { s0 with mainDate := { d with day := 1, month := 1,
                                       year_long := (d.year_long + 1) % 65536,
                                       year_short := (d.year_short + 1) % 256 } }

/-- The rollover-draining prologue of the main while loop: run CalcTime when
minute rollovers are pending, then CalcDate when the day-rollover flag is
set (both tests happen in this order in each pass of the loop body). -/
def MainLoopDrain (s : ClockState) : ClockState :=
  let s1 := if 1 ≤ s.mins_rollover then CalcTime s else s
  if s1.day_rollover = 1 then CalcDate s1 else s1

/- ===== Field editors (SetDay) ===== -/

/-- SetDay: a single invocation of the day editor on the struct `dd`, with
the two debounced button readings held fixed for this invocation (`pb1`
decrements, `pb2` increments).  The four guarded updates run in sequence
exactly as in the source; the decrement-wrap target is
`DaysInMonth[MainDate.month]`, read from the global clock-of-record whose
month is passed in as `mainMonth`. -/
def SetDay (pb1 pb2 : Bool) (mainMonth : Nat) (dd : DATE) : DATE :=
  if CalcLeapYear dd.year_long = 1 then
    let d1 := if pb2 ∧ dd.day < DaysInMonthLeap.getD dd.month 0 then
                { dd with day := dd.day + 1 } else dd
    let d2 := if pb2 ∧ d1.day = DaysInMonthLeap.getD d1.month 0 then
                { d1 with day := 1 } else d1
    let d3 := if pb1 ∧ 1 < d2.day then { d2 with day := d2.day - 1 } else d2
    if pb1 ∧ d3.day = 1 then { d3 with day := DaysInMonth.getD mainMonth 0 } else d3
  else
    let d1 := if pb2 ∧ dd.day < DaysInMonthLeap.getD dd.month 0 then
                { dd with day := dd.day + 1 } else dd
    let d2 := if pb2 ∧ d1.day = DaysInMonth.getD d1.month 0 then
                { d1 with day := 1 } else d1
    let d3 := if pb1 ∧ 1 < d2.day then { d2 with day := d2.day - 1 } else d2
    if pb1 ∧ d3.day = 1 then { d3 with day := DaysInMonth.getD mainMonth 0 } else d3

/- ===== Settings state machine: TMR1IE handling per edit state ===== -/

/-- The edit states of the settings state machine: the six clock-of-record
field editors (cases SECS..YEAR of SetMenu) and the alarm edit sub-modes
(the cases of SetAlarm1 and SetAlarm2, including the on/off toggles). -/
inductive MenuCase where
  | secsSet
  | minsSet
  | hrsSet
  | daySet
  | monthSet
  | yearSet
  | alarm1Secs
  | alarm1Mins
  | alarm1Hrs
  | alarm1Toggle
  | alarm2Secs
  | alarm2Mins
  | alarm2Hrs
  | alarm2Year
  | alarm2Month
  | alarm2Day
  | alarm2Toggle
deriving Repr, DecidableEq

/-- Whether the case body begins with the statement `PIE1bits.TMR1IE = 0`.
In SetMenu this statement is present in the SECS, MINS, HRS, DAY, MONTH and
YEAR cases only; no case of SetAlarm1 or SetAlarm2 contains it. -/
def caseClearsTMR1IEOnEntry : MenuCase → Bool
  | .secsSet => true
  | .minsSet => true
  | .hrsSet => true
  | .daySet => true
  | .monthSet => true
  | .yearSet => true
  | _ => false

/-- Whether the case body ends with the statement `PIE1bits.TMR1IE = 1`.
Present in exactly the same six SetMenu cases, and in no alarm sub-mode. -/
def caseSetsTMR1IEOnExit : MenuCase → Bool
  | .secsSet => true
  | .minsSet => true
  | .hrsSet => true
  | .daySet => true
  | .monthSet => true
  | .yearSet => true
  | _ => false

/-- The value the seconds-interrupt enable bit TMR1IE holds while the inner
edit loop of a case runs, given its value `e` on entry to the case. -/
def TMR1IEduringEdit (c : MenuCase) (e : Bool) : Bool :=
  if caseClearsTMR1IEOnEntry c then false else e

/-- The value TMR1IE holds after the case exits, given its value `e` on
entry. -/
def TMR1IEafterEdit (c : MenuCase) (e : Bool) : Bool :=
  if caseSetsTMR1IEOnExit c then true else TMR1IEduringEdit c e

/- ===== Alarm comparison engine ===== -/

/-- The C logical-and of two int-valued flags: 1 when both are nonzero. -/
def cAnd (a b : Nat) : Nat := if a ≠ 0 ∧ b ≠ 0 then 1 else 0

/-- CompareTimes: args = 1 compares hours/minutes/seconds only; args = 2
additionally compares day, month and the two-digit year; anything else
returns 0. -/
def CompareTimes (mainTime : TIME) (mainDate : DATE) (alarmTime : TIME)
    (alarmDate : DATE) (args : Nat) : Nat :=
  match args with
  | 1 =>
    if mainTime.hrs = alarmTime.hrs ∧ mainTime.mins = alarmTime.mins ∧
       mainTime.secs = alarmTime.secs then 1 else 0
  | 2 =>
    if mainTime.hrs = alarmTime.hrs ∧ mainTime.mins = alarmTime.mins ∧
       mainTime.secs = alarmTime.secs ∧ mainDate.day = alarmDate.day ∧
       mainDate.month = alarmDate.month ∧
       mainDate.year_short = alarmDate.year_short then 1 else 0
  | _ => 0

/-- The main loop's Alarm 1 firing test:
`(CompareTimes(MainTime, &MainDate, &Alarm1Time, &Alarm1Date, 1) && Alarm1On) == 1`. -/
def Alarm1Fire (mainTime : TIME) (mainDate : DATE) (a1Time : TIME)
    (a1Date : DATE) (alarm1On : Nat) : Nat :=
  cAnd (CompareTimes mainTime mainDate a1Time a1Date 1) alarm1On

/-- The main loop's Alarm 2 firing test, identical but with args = 2 and the
Alarm2 records. -/
def Alarm2Fire (mainTime : TIME) (mainDate : DATE) (a2Time : TIME)
    (a2Date : DATE) (alarm2On : Nat) : Nat :=
  cAnd (CompareTimes mainTime mainDate a2Time a2Date 2) alarm2On

/- ===== Spec-side variant used only to settle C9 ===== -/

/-- Modelled from the claim C9's wording, NOT from the source: the non-leap
branch of advance_day as the claim describes it, with the can-still-increment
test consulting the leap-year table DaysInMonthLeap and the must-wrap-to-1
test consulting the non-leap table DaysInMonth.  The leap branch and the
wrap/year logic are as in CalcDate.  This definition exists only to be
compared against `CalcDate` as transcribed from the source. -/
def CalcDateClaimMixed (s : ClockState) : ClockState :=
  let s0 := { s with day_rollover := 0 }
  let d := s0.mainDate
  if CalcLeapYear d.year_long = 0 then
    if d.day < DaysInMonthLeap.getD d.month 0 then
      { s0 with mainDate := { d with day := d.day + 1 } }
    else
      if d.day = DaysInMonth.getD d.month 0 then
        if d.month < 12 then
          { s0 with mainDate := { d with day := 1, month := d.month + 1 } }
        else
          if d.year_long < 99 then
            { s0 with mainDate := { d with day := 1, month := 1,
                                           year_long := (d.year_long + 1) % 65536,
                                           year_short := (d.year_short + 1) % 256 } }
          else
            { s0 with mainDate := { d with day := 1, month := 1,
                                           year_long := 2000, year_short := 0 } }
      else s0
  else
    if d.day < DaysInMonthLeap.getD d.month 0 then
      { s0 with mainDate := { d with day := d.day + 1 } }
    else
      if d.month < 12 then
        { s0 with mainDate := { d with day := 1, month := d.month + 1 } }
      else
        { s0 with mainDate := { d with day := 1, month := 1,
                                       year_long := (d.year_long + 1) % 65536,
                                       year_short := (d.year_short + 1) % 256 } }

/- ===== Concrete states used by the closed theorems ===== -/

/-- Clock state 10:58:00 with one pending minute rollover (date arbitrary). -/
def stateC1 : ClockState :=
  { mainTime := ⟨10, 58, 0⟩, mainDate := ⟨1, 1, 16, 2016⟩,
    mins_rollover := 1, day_rollover := 0, dp_mask := 0xFF }

/-- Clock state dated 31 December 2017 (a non-leap year) with the
day-rollover flag set. -/
def stateC2 : ClockState :=
  { mainTime := ⟨0, 0, 0⟩, mainDate := ⟨31, 12, 17, 2017⟩,
    mins_rollover := 0, day_rollover := 1, dp_mask := 0xFF }

/-- Clock state 23:59:59 dated 31 December 2016 (a leap year), no pending
rollovers: the starting point of the end-to-end New Year scenario. -/
def stateC4 : ClockState :=
  { mainTime := ⟨23, 59, 59⟩, mainDate := ⟨31, 12, 16, 2016⟩,
    mins_rollover := 0, day_rollover := 0, dp_mask := 0xFF }

/-- Clock state dated 28 February 2017 (non-leap) with the day-rollover flag
set: the date on which the two days-in-month tables disagree. -/
def stateC9 : ClockState :=
  { mainTime := ⟨0, 0, 0⟩, mainDate := ⟨28, 2, 17, 2017⟩,
    mins_rollover := 0, day_rollover := 1, dp_mask := 0xFF }

/- ===================== Theorems ===================== -/

/-- Helper: the C logical-and equals 1 exactly when both operands are
nonzero. -/
theorem cAnd_eq_one (a b : Nat) : cAnd a b = 1 ↔ (a ≠ 0 ∧ b ≠ 0) := by
  unfold cAnd
  split <;> simp_all

/-- Claim C1 (code_bug evaluation): at minutes = 58 with one accumulated
rollover — a sum of 59, squarely inside the claim's `minutes+rollover < 60`
case — CalcTime does not set minutes to 59 and leave hours alone; because
its guard is `mins_temp < 59` rather than `< 60`, it takes the rollover
branch, stores 59 − 60 truncated to the unsigned char 255 in minutes and
increments hours from 10 to 11 (the rollover count is cleared). -/
theorem calcTime_sum59_rolls_over :
    (CalcTime stateC1).mainTime.mins = 255 ∧
    (CalcTime stateC1).mainTime.hrs = 11 ∧
    (CalcTime stateC1).mins_rollover = 0 := by
  decide

/-- Claim C2 (code_bug evaluation): advancing the day past 31 December 2017
(a non-leap year) does not advance the year to 2018.  The non-leap December
wrap guards the increment with `year_long < 99`, which is false for every
reachable year (all are ≥ 2000), so the code resets the date to
1 January 2000 with the two-digit year 00. -/
theorem calcDate_dec2017_resets_year_2000 :
    (CalcDate stateC2).mainDate = ⟨1, 1, 0, 2000⟩ ∧
    (CalcDate stateC2).day_rollover = 0 := by
  decide

/-- Claim C4: starting from 23:59:59 on 31/12/2016 (a leap year), one firing
of the seconds interrupt followed by one main-loop drain of the rollover
signals (CalcTime then CalcDate) yields 00:00:00 on 01/01/2017, with the
two-digit year becoming 17 and both rollover signals clear. -/
theorem newyear_2016_end_to_end :
    (MainLoopDrain (Timer1_isr stateC4)).mainTime = ⟨0, 0, 0⟩ ∧
    (MainLoopDrain (Timer1_isr stateC4)).mainDate = ⟨1, 1, 17, 2017⟩ ∧
    (MainLoopDrain (Timer1_isr stateC4)).mins_rollover = 0 ∧
    (MainLoopDrain (Timer1_isr stateC4)).day_rollover = 0 := by
  decide

/-- Claim C6 (counterexample): in the Alarm1 seconds-edit sub-mode the
seconds-clock interrupt is NOT disabled — entering with TMR1IE enabled
leaves it enabled while the edit loop runs, refuting the claim that every
edit state of the settings state machine freezes time on entry. -/
theorem alarm1_secs_edit_keeps_tmr1ie :
    TMR1IEduringEdit MenuCase.alarm1Secs true = true := by
  decide

/-- Claim C6 (amended): the six clock-of-record field editors disable the
seconds-clock interrupt on entry (TMR1IE is false throughout their inner
edit loop) and re-enable it on exit, while none of the alarm edit sub-modes
touches TMR1IE — the interrupt keeps its entry value both during and after
those states. -/
theorem setMenu_tmr1ie_amended :
    ∀ e : Bool,
      (TMR1IEduringEdit MenuCase.secsSet e = false ∧ TMR1IEafterEdit MenuCase.secsSet e = true) ∧
      (TMR1IEduringEdit MenuCase.minsSet e = false ∧ TMR1IEafterEdit MenuCase.minsSet e = true) ∧
      (TMR1IEduringEdit MenuCase.hrsSet e = false ∧ TMR1IEafterEdit MenuCase.hrsSet e = true) ∧
      (TMR1IEduringEdit MenuCase.daySet e = false ∧ TMR1IEafterEdit MenuCase.daySet e = true) ∧
      (TMR1IEduringEdit MenuCase.monthSet e = false ∧ TMR1IEafterEdit MenuCase.monthSet e = true) ∧
      (TMR1IEduringEdit MenuCase.yearSet e = false ∧ TMR1IEafterEdit MenuCase.yearSet e = true) ∧
      (TMR1IEduringEdit MenuCase.alarm1Secs e = e ∧ TMR1IEafterEdit MenuCase.alarm1Secs e = e) ∧
      (TMR1IEduringEdit MenuCase.alarm1Mins e = e ∧ TMR1IEafterEdit MenuCase.alarm1Mins e = e) ∧
      (TMR1IEduringEdit MenuCase.alarm1Hrs e = e ∧ TMR1IEafterEdit MenuCase.alarm1Hrs e = e) ∧
      (TMR1IEduringEdit MenuCase.alarm1Toggle e = e ∧ TMR1IEafterEdit MenuCase.alarm1Toggle e = e) ∧
      (TMR1IEduringEdit MenuCase.alarm2Secs e = e ∧ TMR1IEafterEdit MenuCase.alarm2Secs e = e) ∧
      (TMR1IEduringEdit MenuCase.alarm2Mins e = e ∧ TMR1IEafterEdit MenuCase.alarm2Mins e = e) ∧
      (TMR1IEduringEdit MenuCase.alarm2Hrs e = e ∧ TMR1IEafterEdit MenuCase.alarm2Hrs e = e) ∧
      (TMR1IEduringEdit MenuCase.alarm2Year e = e ∧ TMR1IEafterEdit MenuCase.alarm2Year e = e) ∧
      (TMR1IEduringEdit MenuCase.alarm2Month e = e ∧ TMR1IEafterEdit MenuCase.alarm2Month e = e) ∧
      (TMR1IEduringEdit MenuCase.alarm2Day e = e ∧ TMR1IEafterEdit MenuCase.alarm2Day e = e) ∧
      (TMR1IEduringEdit MenuCase.alarm2Toggle e = e ∧ TMR1IEafterEdit MenuCase.alarm2Toggle e = e) := by
  intro e
  cases e <;> decide

/-- Claim C9 (counterexample): on 28 February of the non-leap year 2017,
CalcDate wraps the day to 1 March — its non-leap can-still-increment test
consults the non-leap table (28 < 28 fails) — whereas the claimed
mixed-table variant, whose increment test consults the leap table
(28 < 29 holds), would move to 29 February.  CalcDate therefore does not
contain the mixed-table asymmetry the claim attributes to it. -/
theorem calcDate_nonleap_uses_nonleap_table :
    (CalcDate stateC9).mainDate.day = 1 ∧
    (CalcDate stateC9).mainDate.month = 3 ∧
    (CalcDateClaimMixed stateC9).mainDate.day = 29 ∧
    (CalcDateClaimMixed stateC9).mainDate.month = 2 ∧
    (CalcDate stateC9).mainDate ≠ (CalcDateClaimMixed stateC9).mainDate := by
  decide

/-- Claim C3: one firing of the seconds interrupt increments seconds when
they are in [0,58] and leaves the minute-rollover signal unchanged; when
seconds is 59 it resets seconds to 0 and increments the minute-rollover
signal by exactly 1 (the counter being below its 8-bit ceiling); in either
case the hours, minutes, the whole date and the day-rollover flag are
untouched. -/
theorem timer1_isr_tick (s : ClockState) :
    (s.mainTime.secs ≤ 58 →
      (Timer1_isr s).mainTime.secs = s.mainTime.secs + 1 ∧
      (Timer1_isr s).mins_rollover = s.mins_rollover) ∧
    (s.mainTime.secs = 59 → s.mins_rollover < 255 →
      (Timer1_isr s).mainTime.secs = 0 ∧
      (Timer1_isr s).mins_rollover = s.mins_rollover + 1) ∧
    (Timer1_isr s).mainTime.hrs = s.mainTime.hrs ∧
    (Timer1_isr s).mainTime.mins = s.mainTime.mins ∧
    (Timer1_isr s).mainDate = s.mainDate ∧
    (Timer1_isr s).day_rollover = s.day_rollover := by
  unfold Timer1_isr
  split
  · rename_i hlt
    exact ⟨fun _ => ⟨rfl, rfl⟩, fun h59 _ => absurd hlt (by omega), rfl, rfl, rfl, rfl⟩
  · rename_i hge
    refine ⟨fun h58 => absurd h58 (by omega), fun _ hlt => ⟨rfl, ?_⟩, rfl, rfl, rfl, rfl⟩
    exact Nat.mod_eq_of_lt (by omega)

/-- Concrete clock state with seconds at 59 and two pending rollovers. -/
def stateC3 : ClockState :=
  { mainTime := ⟨12, 34, 59⟩, mainDate := ⟨5, 6, 17, 2017⟩,
    mins_rollover := 2, day_rollover := 0, dp_mask := 0xFF }

/-- Witness for claim C3 at seconds = 59, rollover count 2. -/
theorem timer1_isr_tick_witness :
    (Timer1_isr stateC3).mainTime.secs = 0 ∧
    (Timer1_isr stateC3).mins_rollover = 3 := by
  have h := (timer1_isr_tick stateC3).2.1 rfl (by decide)
  exact ⟨h.1, h.2⟩

/-- Claim C5 (code_bug evaluation): PB1pressed does not re-sample the line
it first sampled.  With RJ5 (the first-sampled line) held asserted for the
whole debounce interval and RJ0 deasserted throughout, it reports
not-pressed, although the claim requires pressed when the sampled line is
still asserted after the wait.  PB2pressed, by contrast, satisfies the
claimed contract on its single line RB0: it reports pressed exactly when RB0
is asserted at the initial sample and still asserted after the debounce
interval, so a transient assertion that ends before the interval elapses is
reported as not-pressed. -/
theorem pb1_resamples_different_line :
    PB1pressed (fun _ => 0) (fun _ => 1) = 0 ∧
    (∀ rb0 : Nat → Nat,
      PB2pressed rb0 = 1 ↔ (rb0 0 = 0 ∧ rb0 DEBOUNCE_DELAY = 0)) := by
  refine ⟨rfl, fun rb0 => ?_⟩
  unfold PB2pressed
  split
  · split <;> simp_all
  · simp_all

/-- Claim C7: the main loop's Alarm 1 test fires exactly when the
clock-of-record's hours, minutes and seconds equal Alarm1's time and the
Alarm1 enabled flag is nonzero — the date being universally quantified and
absent from the right-hand side, every date field is irrelevant, and a
cleared flag suppresses firing; the Alarm 2 test fires exactly when the
time AND the day, month and two-digit year all match with the Alarm2 flag
set, so a mismatch in any single date field prevents it. -/
theorem compareTimes_alarm_fire (mt : TIME) (md : DATE) (a1t a2t : TIME)
    (a1d a2d : DATE) (on1 on2 : Nat) :
    (Alarm1Fire mt md a1t a1d on1 = 1 ↔
      (mt.hrs = a1t.hrs ∧ mt.mins = a1t.mins ∧ mt.secs = a1t.secs ∧ on1 ≠ 0)) ∧
    (Alarm2Fire mt md a2t a2d on2 = 1 ↔
      (mt.hrs = a2t.hrs ∧ mt.mins = a2t.mins ∧ mt.secs = a2t.secs ∧
       md.day = a2d.day ∧ md.month = a2d.month ∧
       md.year_short = a2d.year_short ∧ on2 ≠ 0)) := by
  constructor
  · unfold Alarm1Fire
    rw [cAnd_eq_one]
    unfold CompareTimes
    split <;> simp_all
    tauto
  · unfold Alarm2Fire
    rw [cAnd_eq_one]
    unfold CompareTimes
    split <;> simp_all
    tauto

/-- Claim C8: every unsigned-char value above 99 makes Num2Disp emit the
error glyph pair (r on U1, E on U2) with LED code 0x01, every display index
above 5 makes CurrentDisplay emit the same glyph pair with the distinct LED
code 0x03, neither error glyph is a digit pattern from DispNums, and every
value in [0,99] is rendered as its tens and units digit glyph patterns. -/
theorem render_error_paths (t i : Nat) (mt : TIME) (md : DATE) (dsp : Disp) :
    (99 < t →
      Num2Disp t dsp =
        { dsp with disp_U1 := DispChars.r, disp_U2 := DispChars.E, disp_LEDS := 0x01 }) ∧
    (t ≤ 99 →
      Num2Disp t dsp =
        { dsp with disp_U2 := DispNums.getD (t / 10) 0,
                   disp_U1 := DispNums.getD (t % 10) 0 }) ∧
    (6 ≤ i →
      CurrentDisplay i mt md dsp =
        { dsp with disp_U2 := DispChars.E, disp_U1 := DispChars.r, disp_LEDS := 0x03 }) ∧
    DispChars.r ∉ DispNums ∧ DispChars.E ∉ DispNums ∧ (0x01 : Nat) ≠ 0x03 := by
  refine ⟨?_, ?_, ?_, by decide, by decide, by decide⟩
  · intro h
    unfold Num2Disp
    rw [if_pos h]
  · intro h
    unfold Num2Disp
    rw [if_neg (by omega)]
  · intro h
    obtain ⟨n, rfl⟩ : ∃ n, i = n + 6 := ⟨i - 6, by omega⟩
    rfl

/-- Witness for claim C8 at the out-of-range value 255, the out-of-range
index 9, and the in-range value 42. -/
theorem render_error_paths_witness :
    Num2Disp 255 ⟨0, 0, 0⟩ = ⟨0x5F, 0x0E, 0x01⟩ ∧
    CurrentDisplay 9 ⟨0, 0, 0⟩ ⟨1, 1, 16, 2016⟩ ⟨0, 0, 0⟩ = ⟨0x5F, 0x0E, 0x03⟩ ∧
    Num2Disp 42 ⟨0, 0, 0⟩ = ⟨0x4C, 0x35, 0⟩ := by
  refine ⟨?_, ?_, ?_⟩
  · exact (render_error_paths 255 9 ⟨0, 0, 0⟩ ⟨1, 1, 16, 2016⟩ ⟨0, 0, 0⟩).1 (by decide)
  · exact (render_error_paths 255 9 ⟨0, 0, 0⟩ ⟨1, 1, 16, 2016⟩ ⟨0, 0, 0⟩).2.2.1 (by decide)
  · exact (render_error_paths 42 9 ⟨0, 0, 0⟩ ⟨1, 1, 16, 2016⟩ ⟨0, 0, 0⟩).2.1 (by decide)

/-- Claim C9 (amended): the mixed-table asymmetry lives in SetDay, not in
CalcDate.  For every non-leap year, at 28 February the day editor's
increment (PB2) moves the day to 29 — its can-still-increment test consults
the leap table DaysInMonthLeap while its wrap-to-1 test consults the
non-leap table DaysInMonth, so neither fires the wrap — whereas CalcDate on
the same date wraps to 1 March, both of its tests being the one comparison
against DaysInMonth.  The last two conjuncts record the table disagreement
that separates the two tests. -/
theorem setDay_mixed_table_asymmetry (y mm : Nat) (hy : CalcLeapYear y = 0) :
    (SetDay false true mm ⟨28, 2, y % 100, y⟩).day = 29 ∧
    (CalcDate { mainTime := ⟨0, 0, 0⟩, mainDate := ⟨28, 2, y % 100, y⟩,
                mins_rollover := 0, day_rollover := 1, dp_mask := 0xFF }).mainDate.day = 1 ∧
    (CalcDate { mainTime := ⟨0, 0, 0⟩, mainDate := ⟨28, 2, y % 100, y⟩,
                mins_rollover := 0, day_rollover := 1, dp_mask := 0xFF }).mainDate.month = 3 ∧
    28 < DaysInMonthLeap.getD 2 0 ∧ ¬ 28 < DaysInMonth.getD 2 0 := by
  refine ⟨?_, ?_, ?_, by decide, by decide⟩
  · unfold SetDay
    split
    · rename_i hleap
      have h01 : (0 : Nat) = 1 := by rw [← hy]; exact hleap
      exact absurd h01 (by decide)
    · rfl
  · unfold CalcDate
    dsimp only
    split
    · rfl
    · rename_i hleap
      exact absurd hy hleap
  · unfold CalcDate
    dsimp only
    split
    · rfl
    · rename_i hleap
      exact absurd hy hleap

/-- Witness for claim C9's amended statement at the non-leap year 2017 with
the clock-of-record month 5. -/
theorem setDay_mixed_table_asymmetry_witness :
    CalcLeapYear 2017 = 0 ∧
    (SetDay false true 5 ⟨28, 2, 2017 % 100, 2017⟩).day = 29 := by
  exact ⟨by decide, (setDay_mixed_table_asymmetry 2017 5 (by decide)).1⟩

/-- Claim C10: whatever DATE struct the day editor is invoked on (the
clock-of-record's own date or Alarm2's date), and in both the leap and the
non-leap branch, decrementing at day = 1 wraps the day to
DaysInMonth[MainDate.month] — the non-leap day count of the global
clock-of-record's current month, not a count derived from the month of the
struct being edited. -/
theorem setDay_decrement_wraps_to_main_month (dd : DATE) (mainMonth : Nat)
    (h : dd.day = 1) :
    (SetDay true false mainMonth dd).day = DaysInMonth.getD mainMonth 0 := by
  unfold SetDay
  split <;> simp [h]

/-- Witness for claim C10: editing Alarm2's date set to 1 August 2016 while
the clock-of-record sits in February wraps the day to 28. -/
theorem setDay_decrement_wraps_to_main_month_witness :
    (SetDay true false 2 ⟨1, 8, 16, 2016⟩).day = DaysInMonth.getD 2 0 ∧
    DaysInMonth.getD 2 0 = 28 := by
  exact ⟨setDay_decrement_wraps_to_main_month ⟨1, 8, 16, 2016⟩ 2 rfl, by decide⟩
